import Mathlib

/-!
Shallow embedding of `src/agendamento_webhook.py` (Bitrix-CRM → Belle-Software
appointment webhook).  Python functions become Lean functions; the external
Bitrix/Belle gateways become oracle parameters describing the responses of the
outside world, and each modelled endpoint additionally returns the list of
external calls it issued (its observable effect trace).  Machine strings stay
`String`, Python ints become `Int`/`Nat`, fallible steps return
`Option`/`Except`.
-/

/-- A Python value stored in a CRM field map: string or integer. -/
inductive PyVal where
  | str (s : String)
  | int (n : Int)
deriving DecidableEq, Repr

/-- Python truthiness of an optional string (`None` and `""` are falsy). -/
def pyTruthy : Option String → Bool
  | none => false
  | some s => s != ""

/-- Python truthiness of a `PyVal` (`""` and `0` are falsy). -/
def pyvTruthy : PyVal → Bool
  | .str s => s != ""
  | .int n => n != 0

/-- Python `str()` applied to a `PyVal`. -/
def pyvStr : PyVal → String
  | .str s => s
  | .int n => toString n

/-- Python `str()` applied to an optional string (`str(None) = "None"`). -/
def pyStrOfOpt : Option String → String
  | none => "None"
  | some s => s

/-- Python `a or b or ...` over optional strings: the first truthy value. -/
def pyFirstOpt : List (Option String) → Option String
  | [] => none
  | x :: rest =>
    match x with
    | some s => if s != "" then some s else pyFirstOpt rest
    | none => pyFirstOpt rest

/-- Python `a or b or ... or dflt`: first truthy value, else the default. -/
def pyFirstD (l : List (Option String)) (dflt : String) : String :=
  (pyFirstOpt l).getD dflt

/-- Decimal value of a digit character. -/
def chDigit (c : Char) : Nat := c.toNat - '0'.toNat

/-- Value of a list of decimal digit characters (most significant first). -/
def digitsToNat (l : List Char) : Nat :=
  l.foldl (fun a c => a * 10 + chDigit c) 0

/-- Python `s.isdigit()` (restricted to ASCII digits): nonempty and all digits. -/
def pyIsdigit (s : String) : Bool :=
  s != "" && s.toList.all Char.isDigit

/-- Python `s.strip()`: drop leading and trailing whitespace (kernel-computable
model of `String.trim`). -/
def pyStrip (s : String) : String :=
  (((s.toList.dropWhile Char.isWhitespace).reverse.dropWhile
    Char.isWhitespace).reverse).asString

/-- Python `s.upper()` (ASCII): uppercase every character. -/
def pyUpper (s : String) : String := (s.toList.map Char.toUpper).asString

/-- Python `s.startswith(pre)`. -/
def pyStartsWith (s pre : String) : Bool := pre.toList.isPrefixOf s.toList

/-- Python `int(s)` on a string: strips whitespace, optional sign, decimal
digits; `none` models the `ValueError` raised on any other input. -/
def pyInt? (s : String) : Option Int :=
  let t := (pyStrip s).toList
  match t with
  | '-' :: rest =>
    if !rest.isEmpty && rest.all Char.isDigit then some (-(digitsToNat rest : Int)) else none
  | '+' :: rest =>
    if !rest.isEmpty && rest.all Char.isDigit then some ((digitsToNat rest : Int)) else none
  | _ =>
    if !t.isEmpty && t.all Char.isDigit then some ((digitsToNat t : Int)) else none

/-- One service entry of the `serv` array sent to the Belle booking call. -/
structure ServEntry where
  codServico : String
  nomeServico : String
  tempo : Int
deriving DecidableEq, Repr

/-- An external call issued by the webhook: a Bitrix RPC method, the Bitrix
`crm.deal.add` call (with its field payload), a Belle endpoint, or the Belle
booking call `agenda/gravar` (with its service array). -/
inductive ExtCall where
  | bitrix (method : String)
  | bitrixDealAdd (fields : List (String × PyVal))
  | belle (endpoint : String)
  | belleAgenda (serv : List ServEntry)
deriving DecidableEq, Repr

/- ==========================================
   Lead / Deal field ids and static translation tables,
   transcribed from the module-level constants of the source.
   ========================================== -/

def LEAD_FIELD_DATA_AGENDAMENTO : String := "UF_CRM_1729176556443"
def LEAD_FIELD_PROFISSIONAL : String := "UF_CRM_1729176701"
def LEAD_FIELD_ESTABELECIMENTO : String := "UF_CRM_6531923E155B0"
def LEAD_FIELD_CODIGO_AGENDAMENTO : String := "UF_CRM_1729176843003"
def LEAD_FIELD_PROCEDIMENTO : String := "UF_CRM_1729180875"
def LEAD_FIELD_PROCEDIMENTO_NOME : String := "UF_CRM_1691074328"
def LEAD_FIELD_CODIGO_CLIENTE_BELLE : String := "UF_CRM_1730401249284"
def LEAD_FIELD_ORIGEM : String := "UF_CRM_1692640693814"
def LEAD_FIELD_CAMPANHA : String := "UF_CRM_1729176132205"
def LEAD_FIELD_TIPO_ATENDIMENTO : String := "UF_CRM_1695303850778"
def LEAD_FIELD_TIPO_PACIENTE : String := "UF_CRM_1729176219395"
def LEAD_FIELD_AGENDADOR : String := "UF_CRM_1729176345"
def LEAD_FIELD_SEGMENTO : String := "UF_CRM_1729176820"
def LEAD_FIELD_EQUIPAMENTO : String := "UF_CRM_1729176824131"
def LEAD_FIELD_TIPO_CONSULTA : String := "UF_CRM_1729176810161"
def FIELD_CODIGO_CLIENTE_BELLE_CONTATO : String := "UF_CRM_1693232565211"

def DEAL_FIELD_DATA_AGENDAMENTO : String := "UF_CRM_67279644B07C8"
def DEAL_FIELD_PROFISSIONAL : String := "UF_CRM_67279644D2A21"
def DEAL_FIELD_ESTABELECIMENTO : String := "UF_CRM_6531923E155B0"
def DEAL_FIELD_CODIGO_AGENDAMENTO : String := "UF_CRM_6727964521E7A"
def DEAL_FIELD_PROCEDIMENTO : String := "UF_CRM_672796455B831"
def DEAL_FIELD_PROCEDIMENTO_NOME : String := "UF_CRM_1691074328"
def DEAL_FIELD_CODIGO_CLIENTE_BELLE : String := "UF_CRM_672796456F150"
def DEAL_FIELD_ORIGEM : String := "UF_CRM_64E79DD16B294"
def DEAL_FIELD_CAMPANHA : String := "UF_CRM_1720714625351"
def DEAL_FIELD_TIPO_ATENDIMENTO : String := "UF_CRM_650C5648BE36D"
def DEAL_FIELD_SEGMENTO : String := "UF_CRM_67279644E834B"
def DEAL_FIELD_AGENDADOR : String := "UF_CRM_1697667153"
def DEAL_FIELD_TIPO_PACIENTE : String := "UF_CRM_65118CE0CE1BD"
def DEAL_FIELD_EQUIPAMENTO : String := "UF_CRM_1729176824131"

/-- Lead→Deal custom field id correspondence (`LEAD_TO_DEAL_FIELD_MAP`). -/
def LEAD_TO_DEAL_FIELD_MAP : List (String × String) := [
  (LEAD_FIELD_DATA_AGENDAMENTO, DEAL_FIELD_DATA_AGENDAMENTO),
  (LEAD_FIELD_PROFISSIONAL, DEAL_FIELD_PROFISSIONAL),
  (LEAD_FIELD_ESTABELECIMENTO, DEAL_FIELD_ESTABELECIMENTO),
  (LEAD_FIELD_CODIGO_AGENDAMENTO, DEAL_FIELD_CODIGO_AGENDAMENTO),
  (LEAD_FIELD_PROCEDIMENTO, DEAL_FIELD_PROCEDIMENTO),
  (LEAD_FIELD_PROCEDIMENTO_NOME, DEAL_FIELD_PROCEDIMENTO_NOME),
  (LEAD_FIELD_CODIGO_CLIENTE_BELLE, DEAL_FIELD_CODIGO_CLIENTE_BELLE),
  (LEAD_FIELD_ORIGEM, DEAL_FIELD_ORIGEM),
  (LEAD_FIELD_CAMPANHA, DEAL_FIELD_CAMPANHA),
  (LEAD_FIELD_TIPO_ATENDIMENTO, DEAL_FIELD_TIPO_ATENDIMENTO),
  (LEAD_FIELD_AGENDADOR, DEAL_FIELD_AGENDADOR),
  (LEAD_FIELD_TIPO_PACIENTE, DEAL_FIELD_TIPO_PACIENTE),
  (LEAD_FIELD_SEGMENTO, DEAL_FIELD_SEGMENTO),
  (LEAD_FIELD_EQUIPAMENTO, DEAL_FIELD_EQUIPAMENTO)]

/-- Establishment code → (CATEGORY_ID, STAGE_ID) pipeline routing table. -/
def ESTABELECIMENTO_TO_PIPELINE : List (String × Int × String) := [
  ("1", (42, "C42:UC_12PH7E")),
  ("2", (42, "C42:UC_12PH7E")),
  ("10", (42, "C42:UC_12PH7E")),
  ("11", (42, "C42:UC_12PH7E")),
  ("5", (48, "C48:UC_7TGHGJ")),
  ("12", (50, "C50:UC_KEJS7X")),
  ("14", (54, "C54:NEW"))]

def DEAL_CATEGORY_ID_DEFAULT : Int := 42
def DEAL_STAGE_DEFAULT : String := "C42:UC_12PH7E"

/-- Enum option remap ORIGEM: Lead option id → Deal option id. -/
def LEAD_TO_DEAL_ENUM_ORIGEM : List (String × String) := [
  ("2138", "2136"), ("136", "220"), ("200", "222"), ("610", "614"),
  ("208", "3442"), ("3674", "3672"), ("3566", "3556"), ("3568", "3564"),
  ("3570", "3558"), ("3572", "3562"), ("3574", "3560"), ("1788", "1784"),
  ("1790", "1786"), ("3612", "3610"), ("7306", "7312"), ("1016", "1014"),
  ("7370", "7376"), ("7380", "7392"), ("7382", "7394"), ("634", "638"),
  ("7400", "7406"), ("7746", "7752"), ("8192", "8198"), ("8484", "8490")]

/-- Enum option remap CAMPANHA: Lead option id → Deal option id. -/
def LEAD_TO_DEAL_ENUM_CAMPANHA : List (String × String) := [
  ("7358", "7360"), ("3720", "3306"), ("3722", "7268"), ("3724", "7270"),
  ("3726", "7272"), ("3728", "3620"), ("3730", "3682"), ("7264", "7274"),
  ("7266", "7276"), ("7328", "7330"), ("7300", "7302"), ("7316", "7318"),
  ("7322", "7324"), ("7334", "7336"), ("7340", "7342"), ("7346", "7348"),
  ("7352", "7354"), ("7364", "7366"), ("7410", "7412"), ("7416", "7426"),
  ("7418", "7428"), ("7420", "7430"), ("7466", "7468"), ("7422", "7432"),
  ("7424", "7434"), ("7472", "7474"), ("7478", "7480"), ("7688", "7690"),
  ("7700", "7704"), ("7702", "7706"), ("7712", "7714"), ("7718", "7720"),
  ("7734", "7738"), ("7736", "7740"), ("7756", "7760"), ("7758", "7762"),
  ("7768", "7774"), ("7770", "7776"), ("7772", "7778"), ("7786", "7794"),
  ("7788", "7796"), ("7790", "7798"), ("7792", "7800"), ("8026", "8028"),
  ("8202", "8210"), ("8204", "8212"), ("8206", "8214"), ("8208", "8216"),
  ("8286", "8288"), ("8292", "8296"), ("8294", "8298"), ("8332", "8334"),
  ("8348", "8350"), ("8472", "8474"), ("8494", "8496"), ("8500", "8502"),
  ("8524", "8526"), ("9626", "9628"), ("10124", "10126")]

/-- Enum option remap TIPO ATENDIMENTO: Lead option id → Deal option id. -/
def LEAD_TO_DEAL_ENUM_TIPO_ATENDIMENTO : List (String × String) := [
  ("718", "742"), ("3712", "3710"), ("1642", "1634"), ("1638", "1632"),
  ("1640", "1636"), ("1846", "1844"), ("720", "744"), ("722", "746"),
  ("726", "750"), ("3388", "3386"), ("7244", "7250"), ("728", "752"),
  ("8338", "8344")]

/-- Enum option remap TIPO PACIENTE: Lead option id → Deal option id. -/
def LEAD_TO_DEAL_ENUM_TIPO_PACIENTE : List (String × String) := [
  ("3732", "7032"), ("3734", "7034"), ("3736", "2920")]

/-- Text → Deal option id table for the visit-type field
(`TIPO_ATENDIMENTO_TEXTO_PARA_ID`). -/
def TIPO_ATENDIMENTO_TEXTO_PARA_ID : List (String × String) := [
  ("VENDA DE PLANO", "742"), ("RENOVACAO DE PLANO", "3710"),
  ("RENOVAÇÃO DE PLANO", "3710"), ("CONSULTA", "1634"),
  ("AVALIACAO GRATUITA", "1632"), ("AVALIAÇÃO GRATUITA", "1632"),
  ("AVALIACAO PAGA", "1636"), ("AVALIAÇÃO PAGA", "1636"),
  ("UTILIZACAO DE VOUCHER", "1844"), ("UTILIZAÇÃO DE VOUCHER", "1844"),
  ("BAIXA DE SESSAO", "744"), ("BAIXA DE SESSÃO", "744"),
  ("RETORNO", "746"), ("CORTESIA", "750"), ("PERMUTA", "3386"),
  ("VENDA DE VOUCHER", "7250"), ("LEAD DESQUALIFICADO", "752"),
  ("LISTA DE ESPERA - NUTROLOGIA", "8344"),
  ("742", "742"), ("3710", "3710"), ("1634", "1634"), ("1632", "1632"),
  ("1636", "1636"), ("1844", "1844"), ("744", "744"), ("746", "746"),
  ("750", "750"), ("3386", "3386"), ("7250", "7250"), ("752", "752"),
  ("8344", "8344")]

/-- `ENUM_FIELD_MAPPINGS`: Lead field id → its enum option remap table. -/
def ENUM_FIELD_MAPPINGS : List (String × List (String × String)) := [
  ("UF_CRM_1692640693814", LEAD_TO_DEAL_ENUM_ORIGEM),
  ("UF_CRM_1729176132205", LEAD_TO_DEAL_ENUM_CAMPANHA),
  ("UF_CRM_1695303850778", LEAD_TO_DEAL_ENUM_TIPO_ATENDIMENTO),
  ("UF_CRM_1729176219395", LEAD_TO_DEAL_ENUM_TIPO_PACIENTE)]

/-- `ENUM_FIELDS`: the field ids subject to enum option remapping. -/
def ENUM_FIELDS : List String := ENUM_FIELD_MAPPINGS.map Prod.fst

/-- Bitrix internal list-element id → Belle establishment code. -/
def BITRIX_TO_BELLE_ESTABELECIMENTO : List (Int × Int) := [
  (238, 1), (240, 2), (242, 5), (244, 10), (246, 11), (248, 12), (8510, 14)]

/-- The set of Belle establishment codes considered already canonical. -/
def BELLE_CODES_VALIDOS : List Int := [1, 2, 5, 10, 11, 12, 14]

/-- Belle establishment code → display name. -/
def BELLE_ESTABELECIMENTO_NOMES : List (Int × String) := [
  (1, "Clínica Crepaldi Dermato"), (2, "Spa Crepaldi"),
  (5, "Clínica Dermato e Convênios"), (10, "Drips Clinic"),
  (11, "Crepaldi Clínica de Estética"), (12, "Espaço Bela Laser"),
  (14, "Klayne Moura Serviços Médicos")]

/-- Static professional code → name table (`BELLE_PROFISSIONAIS`). -/
def BELLE_PROFISSIONAIS : List (String × String) := [
  ("100822", "Anny Karolliny"), ("103585", "Amanda Rafaela Finkler"),
  ("108195", "Tairane de Souza Moraes"), ("39340", "Nadya Ribeiro"),
  ("39898", "Letycia Oliveira"), ("74361", "Maria Aparecida"),
  ("88681", "Luana Barbosa"), ("EVELIN", "Evelim"),
  ("KELLY", "Dra Kelly da Cas"), ("NATASHA", "Dra Natasha")]

/- ==========================================
   Pure converters.
   ========================================== -/

/-- `converter_enum_lead_para_deal`: remap a Lead enum option value to its Deal
option id.  The second component models whether the `enum_sem_mapeamento`
warning was logged (registered field, unknown option id). -/
def converter_enum_lead_para_deal (field_id : String) (lead_value : PyVal) :
    PyVal × Bool :=
  if !pyvTruthy lead_value then (lead_value, false)
  else
    match ENUM_FIELD_MAPPINGS.lookup field_id with
    | none => (lead_value, false)
    | some mapping =>
      match mapping.lookup (pyvStr lead_value) with
      | some deal_value => (PyVal.str deal_value, false)
      | none => (lead_value, true)

/-- `obter_pipeline_por_estabelecimento`: establishment code →
(CATEGORY_ID, STAGE_ID), total with a default route.  The argument is optional
because the source passes `None` through `str(...)` (giving `"None"`). -/
def obter_pipeline_por_estabelecimento (codigo_estabelecimento : Option String) :
    Int × String :=
  let codigo_str := pyStrip (pyStrOfOpt codigo_estabelecimento)
  match ESTABELECIMENTO_TO_PIPELINE.lookup codigo_str with
  | some pipeline_info => pipeline_info
  | none => (DEAL_CATEGORY_ID_DEFAULT, DEAL_STAGE_DEFAULT)

/-- `converter_estabelecimento_para_belle`: Bitrix internal list id → Belle
establishment code.  `api_lookup` is the oracle for the `lists.element.get`
fallback: `some code` when the Bitrix API returned an element with an
extractable integer code, `none` when the call failed or had no usable result
(both fall through to pass-through in the source).  Also returns the external
calls issued. -/
def converter_estabelecimento_para_belle (api_lookup : Option Int)
    (estabelecimento_id : Int) : Int × List ExtCall :=
  if BELLE_CODES_VALIDOS.contains estabelecimento_id then
    (estabelecimento_id, [])
  else
    match BITRIX_TO_BELLE_ESTABELECIMENTO.lookup estabelecimento_id with
    | some belle_code => (belle_code, [])
    | none =>
      match api_lookup with
      | some belle_code => (belle_code, [ExtCall.bitrix "lists.element.get"])
      | none => (estabelecimento_id, [ExtCall.bitrix "lists.element.get"])

/-- `validar_estabelecimento`: warning message when the (supposed) Belle code
is not one of the known establishments, `none` otherwise. -/
def validar_estabelecimento (estabelecimento_codigo : Int)
    (estabelecimento_nome : Option String) : Option String :=
  let estabelecimentos_validos : List Int := [1, 2, 5, 10, 11, 12, 14]
  if estabelecimentos_validos.contains estabelecimento_codigo then none
  else some ("Estabelecimento " ++ toString estabelecimento_codigo ++ " (" ++
    pyStrOfOpt estabelecimento_nome ++ ") pode estar incorreto!")

/-- `buscar_nome_profissional`: professional code → display name, falling back
to the code itself. -/
def buscar_nome_profissional (cod_profissional : String) : String :=
  if cod_profissional = "" then "Profissional"
  else
    match BELLE_PROFISSIONAIS.lookup cod_profissional with
    | some nome => nome
    | none => cod_profissional

/- ==========================================
   Procedure reference parser (`parse_bitrix_servico`) and the regex models.
   ========================================== -/

/-- Case-insensitive literal prefix match over character lists; returns the
rest of the input on success. -/
def ciPrefix : List Char → List Char → Option (List Char)
  | [], s => some s
  | _, [] => none
  | p :: ps, c :: cs => if p.toLower = c.toLower then ciPrefix ps cs else none

/-- Case-sensitive literal prefix match over character lists. -/
def litPrefix : List Char → List Char → Option (List Char)
  | [], s => some s
  | _, [] => none
  | p :: ps, c :: cs => if p = c then litPrefix ps cs else none

/-- One anchored attempt of the regex
`servico\[(\d+)\]\[nome\]=(.+)` (IGNORECASE): literal `servico[`, a nonempty
digit run (group 1), literal `][nome]=`, then at least one non-newline
character (group 2, greedy to the end of the line). -/
def servicoNomeMatchAt (s : List Char) : Option (String × String) :=
  match ciPrefix "servico[".toList s with
  | none => none
  | some r1 =>
    let ds := r1.takeWhile Char.isDigit
    if ds.isEmpty then none
    else
      match ciPrefix "][nome]=".toList (r1.drop ds.length) with
      | none => none
      | some r3 =>
        let nm := r3.takeWhile (fun c => c != '\n')
        if nm.isEmpty then none else some (ds.asString, nm.asString)

/-- `re.search` of the pattern above: the leftmost successful anchored match. -/
def servicoNomeSearch : List Char → Option (String × String)
  | [] => none
  | c :: cs =>
    match servicoNomeMatchAt (c :: cs) with
    | some r => some r
    | none => servicoNomeSearch cs

/-- The `ProcedureReference` produced by `parse_bitrix_servico`. -/
structure ServicoInfo where
  codServico : Option String
  nomeServico : Option String
  tempo : Int
deriving DecidableEq, Repr

/-- `parse_bitrix_servico`: decode the Bitrix service token, with the request
query parameters supplying the sibling `servico[CODE][tempo]` duration. -/
def parse_bitrix_servico (procedimento : String)
    (query_params : List (String × String)) : ServicoInfo :=
  let result : ServicoInfo := { codServico := none, nomeServico := none, tempo := 30 }
  if procedimento = "" then result
  else
    match servicoNomeSearch procedimento.toList with
    | some (code, nome) =>
      let tempo :=
        let tempo_key := "servico[" ++ code ++ "][tempo]"
        match query_params.lookup tempo_key with
        | some v =>
          match pyInt? v with
          | some t => t
          | none => result.tempo
        | none => result.tempo
      { codServico := some code, nomeServico := some (pyStrip nome), tempo := tempo }
    | none =>
      let servicos := ((procedimento.toList.splitOn ',').map (fun l => pyStrip l.asString)).filter (fun s => s != "")
      match servicos with
      | [] => result
      | primeiro :: _ =>
        if pyIsdigit primeiro then
          { result with codServico := some primeiro, nomeServico := some primeiro }
        else
          { result with codServico := some primeiro, nomeServico := some primeiro }

/- ==========================================
   Synthesized identity document (`gerar_cpf_valido`).
   ========================================== -/

/-- Python `str()` of a non-negative integer: its big-endian decimal digits. -/
def pyStrNat (n : Nat) : List Char :=
  if n = 0 then ['0'] else ((Nat.digits 10 n).map Nat.digitChar).reverse

/-- `str(seed).zfill(9)[-9:]`: left-pad with zeros to width 9, then keep the
last nine characters. -/
def zfill9_last9 (ds : List Char) : List Char :=
  let padded := List.replicate (9 - ds.length) '0' ++ ds
  padded.drop (padded.length - 9)

/-- Weighted checksum `sum(int(l[i]) * (w - i) for i in range(len(l)))` used by
the CPF check-digit computation, written as a fold with decreasing weight. -/
def somaPesos : List Char → Nat → Nat
  | [], _ => 0
  | c :: rest, w => chDigit c * w + somaPesos rest (w - 1)

/-- `gerar_cpf_valido`: deterministic valid CPF synthesized from a seed
(the last nine decimal digits of the seed plus two check digits). -/
def gerar_cpf_valido (seed : Nat) : String :=
  let base := zfill9_last9 (pyStrNat seed)
  let soma1 := somaPesos base 10
  let resto1 := soma1 % 11
  let d1 := if resto1 < 2 then 0 else 11 - resto1
  let base_com_d1 := base ++ pyStrNat d1
  let soma2 := somaPesos base_com_d1 11
  let resto2 := soma2 % 11
  let d2 := if resto2 < 2 then 0 else 11 - resto2
  (base ++ pyStrNat d1 ++ pyStrNat d2).asString

/- ==========================================
   Gateway value objects and helper wrappers.
   ========================================== -/

/-- A parsed Belle `agenda/gravar` response body.  Every field models
`response.get(...)` on the corresponding key (`none` = key absent). -/
structure BelleAgendaResp where
  msg : Option String := none
  codAgendamento : Option String := none
  codigo_agendamento : Option String := none
  codigo : Option String := none
  id : Option String := none
deriving DecidableEq, Repr

/-- A parsed Belle `cliente/gravar` response body. -/
structure ClienteResp where
  codigo : Option String := none
  codCliente : Option String := none
  cod_cliente : Option String := none
  id : Option String := none
deriving DecidableEq, Repr

/-- One user of the Belle establishment roster (`usuario/buscar`). -/
structure Usuario where
  cod_usuario : String
  nom_usuario : String
  possui_agenda : String
deriving DecidableEq, Repr

/-- A fetched Bitrix lead (`crm.lead.get` result), restricted to the parts the
webhook reads.  `fields` holds the custom `UF_` fields. -/
structure LeadInfo where
  title : Option String := none
  name : Option String := none
  phone : Option String := none
  cpf : Option String := none
  contact_id : Option String := none
  fields : List (String × PyVal) := []
deriving DecidableEq, Repr

def BELLE_AGENDA_GRAVAR : String :=
  "/api/release/controller/IntegracaoExterna/v1.0/agenda/gravar"
def BELLE_CLIENTE_GRAVAR : String :=
  "/api/release/controller/IntegracaoExterna/v1.0/cliente/gravar"
def BELLE_USUARIO_BUSCAR : String :=
  "/api/release/controller/IntegracaoExterna/v1.0/usuario/buscar"

/-- `adicionar_comentario_lead`: appends a timeline comment.  It catches every
exception internally and its `Bool` result is discarded by all callers, so the
model only records the issued call. -/
def adicionar_comentario_lead (lead_id : Int) (comentario : String) : List ExtCall :=
  [ExtCall.bitrix "crm.timeline.comment.add"]

/-- `atualizar_lead`: updates lead fields.  It catches every exception
internally and its `Bool` result is discarded by all callers, so the model only
records the issued call. -/
def atualizar_lead (lead_id : Int) : List ExtCall :=
  [ExtCall.bitrix "crm.lead.update"]

/-- `criar_agendamento_belle`: book the appointment on Belle.  `chamada` is the
transport-level outcome of `belle_call` (`.error` = HTTP error raised).  The
function mounts the single-service `serv` array and classifies a transport-ok
response carrying an error message without a booking code as a failure
(`raise Exception(f"Belle API: {msg}")`). -/
def criar_agendamento_belle (codServico : Option String) (tempo : Int)
    (chamada : Except String BelleAgendaResp) :
    Except String BelleAgendaResp × List ExtCall :=
  let serv_array : List ServEntry :=
    match codServico with
    | some c => if c != "" then [⟨c, c, tempo⟩] else []
    | none => []
  let tr := [ExtCall.belleAgenda serv_array]
  match chamada with
  | .error e => (.error e, tr)
  | .ok response =>
    if pyTruthy response.msg && !pyTruthy response.codAgendamento then
      (.error ("Belle API: " ++ response.msg.getD ""), tr)
    else
      (.ok response, tr)

/-- First roster user whose normalized code equals the requested one
(the `for usuario in usuarios` search loop). -/
def findUsuario (cod_str : String) : List Usuario → Option Usuario
  | [] => none
  | u :: rest =>
    if pyUpper (pyStrip u.cod_usuario) == cod_str then some u else findUsuario cod_str rest

/-- `validar_profissional_no_estabelecimento`: check that the professional
belongs to the establishment roster and has an enabled agenda.  `resposta` is
the oracle for the `usuario/buscar` call (`.error` = the query raised, which
the source swallows and lets the booking proceed).  Returns
`(valido, nome_profissional, mensagem_erro)` plus the issued calls. -/
def validar_profissional_no_estabelecimento (cod_profissional : String)
    (cod_estab : Int) (resposta : Except Unit (List Usuario)) :
    (Bool × Option String × Option String) × List ExtCall :=
  if cod_profissional = "" then
    ((false, none, some "Código do profissional não informado"), [])
  else
    let tr := [ExtCall.belle BELLE_USUARIO_BUSCAR]
    match resposta with
    | .error _ => ((true, none, none), tr)
    | .ok usuarios =>
      if usuarios.isEmpty then ((true, none, none), tr)
      else
        let cod_profissional_str := pyUpper (pyStrip cod_profissional)
        match findUsuario cod_profissional_str usuarios with
        | some u =>
          if u.possui_agenda != "Sim" then
            ((false, some u.nom_usuario,
              some ("Profissional " ++ u.nom_usuario ++ " (" ++ cod_profissional ++
                ") não possui agenda habilitada no estabelecimento")), tr)
          else
            ((true, some u.nom_usuario, none), tr)
        | none =>
          let nomes_disponiveis :=
            ((usuarios.filter (fun u => u.possui_agenda == "Sim")).map
              (fun u => u.nom_usuario)).take 5
          let nome_estab := (BELLE_ESTABELECIMENTO_NOMES.lookup cod_estab).getD
            ("Estabelecimento " ++ toString cod_estab)
          ((false, none,
            some ("Profissional " ++ cod_profissional ++ " não pertence ao " ++
              nome_estab ++ ". Profissionais disponíveis: " ++
              String.intercalate ", " nomes_disponiveis)), tr)

/-- `buscar_codigo_cliente_belle_no_contato`: fetch the lead, follow its
`CONTACT_ID` and read the Belle customer code from the linked contact.
`contact_id` is the oracle for the `CONTACT_ID` of the fetched lead (`none`
covers a failed fetch, a missing lead and an unlinked lead, all of which the
source maps to `None`); `codigo_no_contato` is the oracle for the code stored
on the contact. -/
def buscar_codigo_cliente_belle_no_contato (contact_id : Option String)
    (codigo_no_contato : Option String) : Option String × List ExtCall :=
  match contact_id with
  | none => (none, [ExtCall.bitrix "crm.lead.get"])
  | some cid =>
    if cid == "" then (none, [ExtCall.bitrix "crm.lead.get"])
    else
      let tr := [ExtCall.bitrix "crm.lead.get", ExtCall.bitrix "crm.contact.get"]
      match codigo_no_contato with
      | some codigo_belle => if codigo_belle != "" then (some codigo_belle, tr) else (none, tr)
      | none => (none, tr)

/- ==========================================
   Lead → Deal promotion (`converter_lead_para_negocio`).
   ========================================== -/

/-- Python dict assignment `d[k] = v` on an association list: replaces the
value in place when the key exists, appends otherwise. -/
def dictSet (l : List (String × PyVal)) (k : String) (v : PyVal) :
    List (String × PyVal) :=
  if (l.lookup k).isSome then
    l.map (fun p => if p.1 == k then (k, v) else p)
  else l ++ [(k, v)]

/-- The Lead→Deal custom-field copy loop: for each mapped pair, copy a truthy
lead value, converting enum option ids through
`converter_enum_lead_para_deal` for registered enum fields. -/
def copiar_campos_lead_deal (lead_fields : List (String × PyVal))
    (acc : List (String × PyVal)) : List (String × PyVal) :=
  LEAD_TO_DEAL_FIELD_MAP.foldl (fun acc p =>
    match lead_fields.lookup p.1 with
    | none => acc
    | some value =>
      if pyvTruthy value then
        let value :=
          if ENUM_FIELDS.contains p.1 then (converter_enum_lead_para_deal p.1 value).1
          else value
        dictSet acc p.2 value
      else acc) acc

/-- The result dict of `converter_lead_para_negocio`. -/
structure ConvResult where
  success : Bool
  deal_id : Option Int
  contact_id : Option String
deriving DecidableEq, Repr

/-- The `dados_agendamento` dict handed to the promotion step. -/
structure DadosAgendamento where
  situacao : Option String := none
  profissional_nome : Option String := none
  servico_nome : Option String := none
  data_agendamento : Option String := none
  codigo_agendamento : Option String := none
  profissional : Option String := none
  estabelecimento : Option String := none
  procedimento : Option String := none
  tipo_consulta : Option String := none
  equipamento : Option String := none
  codigo_cliente_belle : Option String := none
  origem : Option PyVal := none
  campanha : Option PyVal := none
  tipo_paciente : Option PyVal := none
  agendador : Option PyVal := none
  segmento : Option PyVal := none
  procedimento_lead : Option PyVal := none
  tipo_atendimento_direto : Option String := none
deriving DecidableEq, Repr

/-- `converter_lead_para_negocio`: create a Deal from the Lead in the routed
pipeline, copying mapped fields, then mark the Lead converted.  `lead_resp` is
the oracle for the internal `crm.lead.get` (`none` covers both an exception,
which the source swallows, and an empty result); `deal_add` is the oracle for
`crm.deal.add` (`.error` = the call raised, landing in the function's catch-all
which returns `success: False`; `.ok none` = no result id).  The
request-supplied payload overlay (source lines 1347-1469) only adds further
entries to `deal_fields` and makes no external calls; of it, only the
booking-code entry is modelled here. -/
def converter_lead_para_negocio (lead_resp : Option LeadInfo)
    (deal_add : Except String (Option Int)) (lead_id : Int)
    (codigo_agendamento : Option String)
    (dados_agendamento : Option DadosAgendamento) : ConvResult × List ExtCall :=
  let tr0 := [ExtCall.bitrix "crm.lead.get"]
  let contact_id := lead_resp.bind (fun ld => ld.contact_id)
  let titulo :=
    match lead_resp with
    | some lead_data => pyFirstD [lead_data.title, lead_data.name] "Novo Negócio"
    | none => "Novo Negócio"
  let estabelecimento_codigo : Option String :=
    match dados_agendamento with
    | some d => if pyTruthy d.estabelecimento then d.estabelecimento else none
    | none => none
  let route := obter_pipeline_por_estabelecimento estabelecimento_codigo
  let deal_fields : List (String × PyVal) :=
    [("TITLE", .str titulo), ("CATEGORY_ID", .int route.1),
     ("STAGE_ID", .str route.2), ("LEAD_ID", .int lead_id)]
  let deal_fields :=
    match contact_id with
    | some cid => if cid != "" then dictSet deal_fields "CONTACT_ID" (.str cid) else deal_fields
    | none => deal_fields
  let deal_fields :=
    match lead_resp with
    | some lead_data => copiar_campos_lead_deal lead_data.fields deal_fields
    | none => deal_fields
  let deal_fields :=
    match codigo_agendamento with
    | some c =>
      if c != "" then dictSet deal_fields DEAL_FIELD_CODIGO_AGENDAMENTO (.str c)
      else deal_fields
    | none => deal_fields
  match deal_add with
  | .error _ =>
    ({ success := false, deal_id := none, contact_id := none },
     tr0 ++ [ExtCall.bitrixDealAdd deal_fields])
  | .ok none =>
    ({ success := false, deal_id := none, contact_id := none },
     tr0 ++ [ExtCall.bitrixDealAdd deal_fields])
  | .ok (some deal_id) =>
    ({ success := true, deal_id := some deal_id, contact_id := contact_id },
     tr0 ++ [ExtCall.bitrixDealAdd deal_fields, ExtCall.bitrix "crm.lead.update"])

/- ==========================================
   Main endpoint `/webhook/agendar` (`processar_agendamento_get`).
   ========================================== -/

/-- Query parameters of `/webhook/agendar` (defaults as declared). -/
structure GetQuery where
  lead_id : Int
  lead_nome : Option String := none
  lead_telefone : Option String := none
  codigo_cliente_belle : Option String := none
  dataagendamento : String := ""
  horario : String := ""
  profissional : String := ""
  profissional_nome : Option String := none
  estabelecimento : String := ""
  tipoagenda : String := "Consulta"
  procedimento : String := ""
  equipamento : Option String := none
  obs : String := ""
  responsavel : Option String := none
  tempo : Int := 30
  situacao : Option String := none
  tipo_atendimento : Option String := none
  query_params : List (String × String) := []
deriving DecidableEq, Repr

/-- Oracle for the external world consulted by `/webhook/agendar`: one field
per gateway call site, giving the response the outside system produced. -/
structure GetOracle where
  estab_api : Option Int := none
  usuario_buscar : Except Unit (List Usuario) := .error ()
  contact_id_do_lead : Option String := none
  codigo_no_contato : Option String := none
  lead_get : Option LeadInfo := none
  criar_cliente : Except String ClienteResp := .error "erro"
  agenda_gravar : Except String BelleAgendaResp := .error "erro"
  conv_lead_get : Option LeadInfo := none
  conv_deal_add : Except String (Option Int) := .error "erro"

/-- Result of `/webhook/agendar`: the success dict, a `success: False` dict, or
an `HTTPException(500)` raised through one of the two outer handlers. -/
inductive GetResult where
  | ok (codigo_agendamento : String) (codigo_cliente_belle : Option String)
      (lead_id : Int) (warning : Option String)
  | fail (message : String) (lead_id : Int)
  | httpError (detail : String)
deriving DecidableEq, Repr

/-- The required-field validation of `/webhook/agendar`: the list of verbose
labels of the missing fields, in declaration order. -/
def camposFaltando (dataagendamento horario profissional estabelecimento
    procedimento : String) : List String :=
  (if dataagendamento = "" then ["Data do Agendamento (dataagendamento)"] else []) ++
  (if horario = "" then ["Horário (horario)"] else []) ++
  (if profissional = "" then ["Profissional (profissional)"] else []) ++
  (if estabelecimento = "" then ["Estabelecimento (estabelecimento)"] else []) ++
  (if procedimento = "" then
    ["Procedimento/Serviço (procedimento) - OBRIGATÓRIO para API Belle"] else [])

/-- A truthy custom field of a fetched lead (used to build `dados_extras`). -/
def leadFieldTruthy (lead_info : Option LeadInfo) (field : String) : Option PyVal :=
  match lead_info with
  | none => none
  | some ld =>
    match ld.fields.lookup field with
    | some v => if pyvTruthy v then some v else none
    | none => none

/-- `processar_agendamento_get`: the `/webhook/agendar` endpoint.  Follows the
source stage by stage: required-field validation, establishment resolution and
validation, professional/establishment pairing check, customer resolution or
creation, procedure parsing, Belle booking, lead update, audit comment,
lead→deal promotion and line-item attachment.  Returns the result object plus
the external calls issued. -/
def processar_agendamento_get (q : GetQuery) (o : GetOracle) :
    GetResult × List ExtCall :=
  let campos_faltando := camposFaltando q.dataagendamento q.horario q.profissional
    q.estabelecimento q.procedimento
  if !campos_faltando.isEmpty then
    (.fail ("Campos obrigatórios não preenchidos: " ++
        String.intercalate ", " campos_faltando) q.lead_id,
     adicionar_comentario_lead q.lead_id "erro_parametros")
  else
    -- estab_bitrix = int(estabelecimento) if estabelecimento else 0;
    -- a ValueError lands in the generic outer handler (comment + HTTP 500)
    match (if q.estabelecimento = "" then some 0 else pyInt? q.estabelecimento) with
    | none =>
      (.httpError "invalid literal for int(): estabelecimento",
       adicionar_comentario_lead q.lead_id "erro")
    | some estab_bitrix =>
      let conv_estab := converter_estabelecimento_para_belle o.estab_api estab_bitrix
      let estab_belle := conv_estab.1
      let aviso_estabelecimento := validar_estabelecimento estab_belle none
      let warning := aviso_estabelecimento
      let tr2 := conv_estab.2 ++
        (match aviso_estabelecimento with
         | some _ => adicionar_comentario_lead q.lead_id "aviso"
         | none => [])
      let vp := validar_profissional_no_estabelecimento q.profissional estab_belle
        o.usuario_buscar
      let tr3 := tr2 ++ vp.2
      if !vp.1.1 then
        (.fail (pyStrOfOpt vp.1.2.2) q.lead_id,
         tr3 ++ adicionar_comentario_lead q.lead_id "profissional_invalido")
      else
        -- fetch the lead (exceptions swallowed)
        let lead_info := o.lead_get
        let tr4 := tr3 ++ [ExtCall.bitrix "crm.lead.get"]
        -- customer code: URL parameter, else the linked contact's field
        let busca :=
          if pyTruthy q.codigo_cliente_belle then (q.codigo_cliente_belle, tr4)
          else
            let b := buscar_codigo_cliente_belle_no_contato o.contact_id_do_lead
              o.codigo_no_contato
            (b.1, tr4 ++ b.2)
        let codigo_cliente_1 := busca.1
        let tr5 := busca.2
        -- 3.1: create the Belle customer when still no code
        let criacao : Except (GetResult × List ExtCall) (Option String × List ExtCall) :=
          if pyTruthy codigo_cliente_1 then .ok (codigo_cliente_1, tr5)
          else
            match o.criar_cliente with
            | .error e =>
              .error (.fail ("Erro ao criar cliente no Belle: " ++ e) q.lead_id,
                tr5 ++ [ExtCall.belle BELLE_CLIENTE_GRAVAR] ++
                  adicionar_comentario_lead q.lead_id "erro_criar_cliente")
            | .ok resp =>
              match pyFirstOpt [resp.codigo, resp.codCliente, resp.cod_cliente, resp.id] with
              | some c =>
                .ok (some c, tr5 ++ [ExtCall.belle BELLE_CLIENTE_GRAVAR] ++
                  atualizar_lead q.lead_id)
              | none => .ok (none, tr5 ++ [ExtCall.belle BELLE_CLIENTE_GRAVAR])
        match criacao with
        | .error r => r
        | .ok (codigo_cliente_belle, tr6) =>
          if !pyTruthy codigo_cliente_belle then
            (.fail "Não foi possível obter ou criar código de cliente Belle." q.lead_id, tr6)
          else
            let servico_info := parse_bitrix_servico q.procedimento q.query_params
            let tempo_servico :=
              if servico_info.tempo != 0 then servico_info.tempo
              else if q.tempo != 0 then q.tempo else 30
            -- codCliente=int(codigo_cliente_belle): ValueError → generic handler
            match pyInt? ((codigo_cliente_belle).getD "") with
            | none =>
              (.httpError "invalid literal for int(): codCliente",
               tr6 ++ adicionar_comentario_lead q.lead_id "erro")
            | some _codCliente =>
              let ag := criar_agendamento_belle servico_info.codServico tempo_servico
                o.agenda_gravar
              let tr7 := tr6 ++ ag.2
              match ag.1 with
              | .error e =>
                (.httpError e, tr7 ++ adicionar_comentario_lead q.lead_id "erro")
              | .ok resp =>
                let codigo_agendamento := pyFirstD [resp.codAgendamento,
                  resp.codigo_agendamento, resp.codigo, resp.id] "CRIADO"
                -- 5: update the lead's scheduling fields
                let tr8 := tr7 ++ atualizar_lead q.lead_id
                -- 6: success audit comment
                let nome_servico := pyFirstD [servico_info.nomeServico,
                  some q.procedimento] "Serviço"
                let nome_profissional_final := pyFirstD [vp.1.2.1, q.profissional_nome]
                  (buscar_nome_profissional q.profissional)
                let tr9 := tr8 ++ adicionar_comentario_lead q.lead_id "sucesso"
                -- 7: promote lead → deal
                let dados_extras : DadosAgendamento := {
                  situacao := q.situacao
                  profissional_nome := some nome_profissional_final
                  servico_nome := some nome_servico
                  data_agendamento := some (q.dataagendamento ++ " " ++ q.horario ++ ":00")
                  codigo_agendamento := some codigo_agendamento
                  profissional := some q.profissional
                  estabelecimento := some q.estabelecimento
                  procedimento := some q.procedimento
                  tipo_consulta := some q.tipoagenda
                  equipamento := q.equipamento
                  codigo_cliente_belle := codigo_cliente_belle
                  origem := leadFieldTruthy lead_info LEAD_FIELD_ORIGEM
                  campanha := leadFieldTruthy lead_info LEAD_FIELD_CAMPANHA
                  tipo_paciente := leadFieldTruthy lead_info LEAD_FIELD_TIPO_PACIENTE
                  agendador := leadFieldTruthy lead_info LEAD_FIELD_AGENDADOR
                  segmento := leadFieldTruthy lead_info LEAD_FIELD_SEGMENTO
                  procedimento_lead := leadFieldTruthy lead_info LEAD_FIELD_PROCEDIMENTO
                  tipo_atendimento_direto :=
                    match q.tipo_atendimento with
                    | some ta =>
                      if ta != "" then
                        some ((TIPO_ATENDIMENTO_TEXTO_PARA_ID.lookup (pyUpper (pyStrip ta))).getD ta)
                      else none
                    | none => none }
                let conversao := converter_lead_para_negocio o.conv_lead_get o.conv_deal_add
                  q.lead_id (some codigo_agendamento) (some dados_extras)
                let tr10 := tr9 ++ conversao.2
                let tr11 := tr10 ++
                  (match conversao.1.deal_id with
                   | some d =>
                     if conversao.1.success && d != 0 && nome_servico != "" then
                       [ExtCall.bitrix "crm.deal.productrows.set"]
                     else []
                   | none => [])
                (.ok codigo_agendamento codigo_cliente_belle q.lead_id warning, tr11)

/- ==========================================
   Legacy endpoint `/agendamentos/add/` (`agendamentos_add_legacy`).
   ========================================== -/

/-- One entry of `servicos_dict`, keyed by the extracted service id. -/
structure ServParam where
  id : String
  nome : Option String := none
  tempo : Option String := none
deriving DecidableEq, Repr

/-- Substring containment (Python `pat in s`), via anchored literal match. -/
def strContainsAux (pat : List Char) : List Char → Bool
  | [] => (litPrefix pat []).isSome
  | c :: cs => (litPrefix pat (c :: cs)).isSome || strContainsAux pat cs

/-- Python `pat in s` on strings. -/
def strContains (s pat : String) : Bool := strContainsAux pat.toList s.toList

/-- One anchored attempt of the regex `servico(?:\[|%5B)(\d+)(?:\]|%5D)`:
literal `servico`, an opening bracket (plain or URL-encoded), a nonempty digit
run (group 1), a closing bracket (plain or URL-encoded). -/
def servKeyMatchAt (s : List Char) : Option String :=
  match litPrefix "servico".toList s with
  | none => none
  | some r0 =>
    let afterOpen :=
      match litPrefix "[".toList r0 with
      | some r => some r
      | none => litPrefix "%5B".toList r0
    match afterOpen with
    | none => none
    | some r1 =>
      let ds := r1.takeWhile Char.isDigit
      if ds.isEmpty then none
      else
        let r2 := r1.drop ds.length
        match litPrefix "]".toList r2 with
        | some _ => some ds.asString
        | none =>
          match litPrefix "%5D".toList r2 with
          | some _ => some ds.asString
          | none => none

/-- `re.search` of the pattern above: leftmost successful anchored match. -/
def servKeySearch : List Char → Option String
  | [] => none
  | c :: cs =>
    match servKeyMatchAt (c :: cs) with
    | some r => some r
    | none => servKeySearch cs

/-- Ensure a `servicos_dict` entry for `sid` exists, then update it; insertion
keeps first-seen order (Python dict semantics). -/
def upsertServParam (dict : List ServParam) (sid : String)
    (f : ServParam → ServParam) : List ServParam :=
  if dict.any (fun e => e.id == sid) then
    dict.map (fun e => if e.id == sid then f e else e)
  else dict ++ [f { id := sid }]

/-- The service-parameter extraction loop of `/agendamentos/add/`: scans the
query string for `servico[ID][nome]` / `servico[ID][tempo]` pairs (plain or
URL-encoded) and for legacy `serv[i]` entries, producing the token list and
the `servicos_dict`. -/
def extract_servicos (query_params : List (String × String)) :
    List String × List ServParam :=
  let scan := query_params.foldl (fun (acc : List String × List ServParam) kv =>
    let key := kv.1
    let value := kv.2
    if pyStartsWith key "servico[" || pyStartsWith key "servico%5B" then
      match servKeySearch key.toList with
      | some serv_id =>
        let upd : ServParam → ServParam := fun e =>
          if strContains key "[nome]" || strContains key "%5Bnome%5D" then
            { e with nome := some value }
          else if strContains key "[tempo]" || strContains key "%5Btempo%5D" then
            let tempo_clean := (value.toList.filter Char.isDigit).asString
            { e with tempo := some (if tempo_clean != "" then tempo_clean else "15") }
          else e
        (acc.1, upsertServParam acc.2 serv_id upd)
      | none => acc
    else if pyStartsWith key "serv[" || pyStartsWith key "serv%5B" then
      (acc.1 ++ [value], acc.2)
    else acc) ([], [])
  let servicos := if !scan.2.isEmpty then scan.2.map (fun e => e.id) else scan.1
  let servicos :=
    if servicos.isEmpty then
      match query_params.lookup "serv" with
      | some v => if v != "" then [v] else servicos
      | none => servicos
    else servicos
  (servicos, scan.2)

/-- Value of a digit-only string as an `Int` (Python `int` on an `isdigit`
string). -/
def pyIntOfDigits (s : String) : Int := (digitsToNat s.toList : Int)

/-- The `serv` array construction of `/agendamentos/add/`: keeps only tokens of
at most six characters (longer ones are presumed Bitrix ids, not Belle codes),
attaching per-service duration and name from `servicos_dict` when present. -/
def montar_serv_array (servicos : List String) (servicos_dict : List ServParam)
    (tempo : String) : List ServEntry :=
  match servicos with
  | [] => []
  | serv :: rest =>
    (if serv != "" && serv.length ≤ 6 then
      let entry := servicos_dict.find? (fun e => e.id == serv)
      let serv_tempo : Int :=
        let tempo_default : Int := if pyIsdigit tempo then pyIntOfDigits tempo else 30
        if !servicos_dict.isEmpty then
          match entry with
          | some e =>
            let ts := e.tempo.getD ""
            if pyIsdigit ts then pyIntOfDigits ts else tempo_default
          | none => tempo_default
        else tempo_default
      let nome :=
        if !servicos_dict.isEmpty then
          match entry with
          | some e => e.nome.getD serv
          | none => serv
        else serv
      [⟨serv, nome, serv_tempo⟩]
    else []) ++ montar_serv_array rest servicos_dict tempo

/-- The `servicos_ignorados` log warning condition: some tokens were supplied
but every one was filtered out of the `serv` array. -/
def servicos_ignorados_warning (servicos : List String)
    (serv_array : List ServEntry) : Bool :=
  !servicos.isEmpty && serv_array.isEmpty

/-- Query parameters of `/agendamentos/add/` (defaults as declared). -/
structure LegacyQuery where
  ID : Option String := none
  dtAgd : String := ""
  codEstab : String := ""
  nomeProf : String := ""
  codProf : String := ""
  id_prof : String := ""
  codCli : String := ""
  hri : String := ""
  entidade : String := "lead"
  vendedor : String := ""
  tipo_agendamento : String := ""
  equipamento : String := ""
  contatoId : String := ""
  contatoCPF : String := ""
  contatoName : String := ""
  tempo : String := "15"
  novo_card : String := ""
  pipe : String := ""
  responsavel : String := ""
  id_item_estab : String := ""
  query_params : List (String × String) := []
deriving DecidableEq, Repr

/-- Oracle for the external calls of `/agendamentos/add/`. -/
structure LegacyOracle where
  estab_api : Option Int := none
  criar_cliente : Except String ClienteResp := .error "erro"
  agenda_gravar : Except String BelleAgendaResp := .error "erro"

/-- Result of `/agendamentos/add/`: the success dict or a `success: False`
dict (this endpoint converts every exception into the latter). -/
inductive LegacyResult where
  | ok (codigo_agendamento : String) (codigo_cliente : Option String)
  | fail (error : String)
deriving DecidableEq, Repr

/-- `agendamentos_add_legacy`: the `/agendamentos/add/` endpoint.  Extracts the
service tokens, resolves the establishment, optionally creates the Belle
customer from the contact CPF, mounts the `serv` array (dropping tokens longer
than six characters), issues the Belle booking call, extracts the booking code
with fallback `"CRIADO"`, and best-effort updates the lead. -/
def agendamentos_add_legacy (q : LegacyQuery) (o : LegacyOracle) :
    LegacyResult × List ExtCall :=
  let extracted := extract_servicos q.query_params
  let servicos := extracted.1
  let servicos_dict := extracted.2
  if q.dtAgd = "" || q.hri = "" then
    (.fail "Data (dtAgd) e horário (hri) são obrigatórios", [])
  else
    -- estab_belle = int(codEstab) if codEstab else None (ValueError → catch-all)
    match (if q.codEstab != "" then
            match pyInt? q.codEstab with
            | some v => Except.ok (some v)
            | none => Except.error "invalid literal for int(): codEstab"
           else Except.ok none : Except String (Option Int)) with
    | .error e => (.fail e, [])
    | .ok estab0 =>
      -- if not estab_belle and id_item_estab: convert the Bitrix internal id
      match (if !(match estab0 with | some v => v != 0 | none => false) &&
                q.id_item_estab != "" then
              match pyInt? q.id_item_estab with
              | some estab_bitrix =>
                let c := converter_estabelecimento_para_belle o.estab_api estab_bitrix
                Except.ok (some c.1, c.2)
              | none => Except.error "invalid literal for int(): id_item_estab"
             else Except.ok (estab0, []) : Except String (Option Int × List ExtCall)) with
      | .error e => (.fail e, [])
      | .ok (estab1, tr1) =>
        match (match estab1 with
               | some v => if v != 0 then some v else none
               | none => none) with
        | none => (.fail "Código do estabelecimento não informado", tr1)
        | some _estab_belle =>
          -- customer: supplied code, else create from the contact CPF
          let cliente :=
            if q.codCli != "" then ((some q.codCli : Option String), tr1)
            else if !(q.contatoCPF.toList.filter Char.isDigit).isEmpty then
              match o.criar_cliente with
              | .ok resp =>
                (pyFirstOpt [resp.codCliente, resp.codigo, resp.cod_cliente, resp.id],
                 tr1 ++ [ExtCall.belle BELLE_CLIENTE_GRAVAR])
              | .error _ => (none, tr1 ++ [ExtCall.belle BELLE_CLIENTE_GRAVAR])
            else (none, tr1)
          let codigo_cliente := cliente.1
          let tr2 := cliente.2
          let _cod_profissional := pyFirstD [some q.codProf, some q.id_prof] ""
          let serv_array := montar_serv_array servicos servicos_dict q.tempo
          -- codCli payload: int(codigo_cliente) (ValueError → catch-all)
          match (match codigo_cliente with
                 | some c =>
                   match pyInt? c with
                   | some v => Except.ok (some v)
                   | none => Except.error "invalid literal for int(): codCli"
                 | none => Except.ok none : Except String (Option Int)) with
          | .error e => (.fail e, tr2)
          | .ok _codCliPayload =>
            let tr3 := tr2 ++ [ExtCall.belleAgenda serv_array]
            match o.agenda_gravar with
            | .error e => (.fail e, tr3)
            | .ok belle_response =>
              let codigo_agendamento := pyFirstD [belle_response.codAgendamento,
                belle_response.codigo_agendamento, belle_response.codigo,
                belle_response.id] "CRIADO"
              let tr4 := tr3 ++
                (match q.ID with
                 | some idv =>
                   if idv != "" && q.entidade == "lead" then
                     atualizar_lead 0 ++ adicionar_comentario_lead 0 "legacy"
                   else []
                 | none => [])
              (.ok codigo_agendamento codigo_cliente, tr4)

/- ==========================================
   Auxiliary definitions for the proofs, and concrete scenario inputs.
   ========================================== -/

/-- The first `k` little-endian decimal digits of `n`, zero-padded. -/
def ldigits : Nat → Nat → List Nat
  | 0, _ => []
  | k + 1, n => n % 10 :: ldigits k (n / 10)

/-- Belle booking response carrying only an error message (no booking code). -/
def respErroSemCodigo : BelleAgendaResp :=
  { msg := some "Horário indisponível para o profissional" }

/-- Legacy request of the C1 scenario: a well-formed booking request. -/
def legacyQueryErro : LegacyQuery :=
  { dtAgd := "01/02/2026", hri := "10:00", codEstab := "1", codCli := "321" }

/-- Legacy oracle of the C1 scenario: transport succeeds, the body carries an
error message and no booking code. -/
def legacyOracleErro : LegacyOracle := { agenda_gravar := .ok respErroSemCodigo }

/-- Request of the C2 scenario: complete booking data with a known customer. -/
def getQuerySucesso : GetQuery :=
  { lead_id := 5, dataagendamento := "01/02/2026", horario := "10:00",
    profissional := "39340", estabelecimento := "240",
    procedimento := "servico[4][nome]=CONSULTA", codigo_cliente_belle := some "77" }

/-- Oracle of the C2 scenario: the booking succeeds with code `"AG1"`, while
every post-booking stage fails (lead fetch empty, deal creation raises). -/
def getOracleSucesso : GetOracle :=
  { agenda_gravar := .ok { codAgendamento := some "AG1" },
    conv_deal_add := .error "erro_deal_add" }

/-- Request of the C3 scenario: the date field is missing. -/
def getQuerySemData : GetQuery :=
  { lead_id := 9, horario := "10:00", profissional := "39340",
    estabelecimento := "240", procedimento := "4" }

/-- Default (all-failing) oracle used by the C3 scenario. -/
def getOracleInerte : GetOracle := {}

/-- Legacy request of the C9 scenario: every service token is longer than six
characters. -/
def legacyQueryServicosLongos : LegacyQuery :=
  { dtAgd := "01/02/2026", hri := "10:00", codEstab := "1",
    query_params := [("serv[0]", "1234567"), ("serv[1]", "7654321")] }

/-- Legacy oracle of the C9 scenario: booking succeeds with code `"AG9"`. -/
def legacyOracleServicosLongos : LegacyOracle :=
  { agenda_gravar := .ok { codAgendamento := some "AG9" } }

/- ==========================================
   Theorems.
   ========================================== -/

/-- Helper: a value produced by `List.lookup` is among the mapped values. -/
theorem lookup_mem_map_snd {α β : Type} [BEq α] (l : List (α × β)) (k : α) (v : β)
    (h : l.lookup k = some v) : v ∈ l.map Prod.snd := by
  induction l with
  | nil => simp [List.lookup] at h
  | cons p rest ih =>
    rw [List.lookup] at h
    by_cases hk : (k == p.1) = true
    · rw [hk] at h
      simp at h
      simp [h]
    · rw [Bool.not_eq_true] at hk
      rw [hk] at h
      simp [ih h]

/-- C7: parsing the structured token `servico[12345][nome]=MASSAGEM` with the
sibling parameter `servico[12345][tempo]=60` yields code `"12345"`, name
`"MASSAGEM"` and duration 60 minutes, the duration being looked up under the
code extracted from the token. -/
theorem parse_bitrix_servico_exemplo_estruturado :
    parse_bitrix_servico "servico[12345][nome]=MASSAGEM"
        [("servico[12345][tempo]", "60")] =
      { codServico := some "12345", nomeServico := some "MASSAGEM", tempo := 60 } := by
  decide

/-- C8: the procedure parser is total (it returns a result on every raw token
and parameter map), and on the empty token it returns null code, null name and
the default duration of 30 minutes, whatever the auxiliary parameters. -/
theorem parse_bitrix_servico_total_e_vazio :
    (∀ query_params, parse_bitrix_servico "" query_params =
      { codServico := none, nomeServico := none, tempo := 30 }) ∧
    (∀ procedimento query_params, ∃ r,
      parse_bitrix_servico procedimento query_params = r) := by
  constructor
  · intro query_params
    rfl
  · intro procedimento query_params
    exact ⟨_, rfl⟩

/-- C5: an establishment code already in canonical Belle form translates to
itself, hence translation is idempotent on such codes. -/
theorem converter_estabelecimento_idempotente (api : Option Int) (x : Int)
    (hx : BELLE_CODES_VALIDOS.contains x = true) :
    (converter_estabelecimento_para_belle api x).1 = x ∧
    (converter_estabelecimento_para_belle api
        (converter_estabelecimento_para_belle api x).1).1 =
      (converter_estabelecimento_para_belle api x).1 := by
  have hm : x ∈ BELLE_CODES_VALIDOS := by simpa using hx
  unfold converter_estabelecimento_para_belle
  simp [hm]

/-- C5 witness: code 1 is canonical and is a fixed point of translation, even
with an interfering API oracle. -/
theorem converter_estabelecimento_idempotente_witness :
    (converter_estabelecimento_para_belle (some 999) 1).1 = 1 ∧
    (converter_estabelecimento_para_belle (some 999)
        (converter_estabelecimento_para_belle (some 999) 1).1).1 =
      (converter_estabelecimento_para_belle (some 999) 1).1 :=
  converter_estabelecimento_idempotente (some 999) 1 (by decide)

/-- C6: pipeline routing is total — the result is always one of the configured
`(CATEGORY_ID, STAGE_ID)` routes — and any code without an explicit table
entry resolves to the default route `(42, "C42:UC_12PH7E")`. -/
theorem obter_pipeline_total_com_default (c : Option String) :
    obter_pipeline_por_estabelecimento c ∈
      (DEAL_CATEGORY_ID_DEFAULT, DEAL_STAGE_DEFAULT) ::
        ESTABELECIMENTO_TO_PIPELINE.map Prod.snd ∧
    (ESTABELECIMENTO_TO_PIPELINE.lookup (pyStrip (pyStrOfOpt c)) = none →
      obter_pipeline_por_estabelecimento c =
        (DEAL_CATEGORY_ID_DEFAULT, DEAL_STAGE_DEFAULT)) := by
  constructor
  · unfold obter_pipeline_por_estabelecimento
    dsimp only
    split
    next pipeline_info heq =>
      exact List.mem_cons_of_mem _ (lookup_mem_map_snd _ _ _ heq)
    next => exact List.mem_cons_self _ _
  · intro h
    unfold obter_pipeline_por_estabelecimento
    dsimp only
    split
    next pipeline_info heq => rw [h] at heq; cases heq
    next => rfl

/-- C6 witness: the unmapped code `"999"` routes to the default pipeline. -/
theorem obter_pipeline_total_com_default_witness :
    obter_pipeline_por_estabelecimento (some "999") =
      (DEAL_CATEGORY_ID_DEFAULT, DEAL_STAGE_DEFAULT) :=
  (obter_pipeline_total_com_default (some "999")).2 (by decide)

/-- C4: for a truthy value, an unregistered field passes through unchanged and
unwarned; a registered field remaps a known option id to the configured deal
option id; a registered field passes an unknown option id through unchanged
with a warning signal. -/
theorem converter_enum_lead_para_deal_spec (field_id : String) (v : PyVal)
    (hv : pyvTruthy v = true) :
    (ENUM_FIELD_MAPPINGS.lookup field_id = none →
      converter_enum_lead_para_deal field_id v = (v, false)) ∧
    (∀ mapping, ENUM_FIELD_MAPPINGS.lookup field_id = some mapping →
      (∀ d, mapping.lookup (pyvStr v) = some d →
        converter_enum_lead_para_deal field_id v = (PyVal.str d, false)) ∧
      (mapping.lookup (pyvStr v) = none →
        converter_enum_lead_para_deal field_id v = (v, true))) := by
  unfold converter_enum_lead_para_deal
  rw [hv]
  refine ⟨fun h => by simp [h], fun mapping h => ⟨fun d hd => by simp [h, hd], fun hd => by simp [h, hd]⟩⟩

/-- C4 witness: the registered ORIGEM field remaps lead option `"2138"` to deal
option `"2136"` without warning. -/
theorem converter_enum_lead_para_deal_spec_witness :
    converter_enum_lead_para_deal "UF_CRM_1692640693814" (PyVal.str "2138") =
      (PyVal.str "2136", false) :=
  ((converter_enum_lead_para_deal_spec "UF_CRM_1692640693814" (PyVal.str "2138")
      (by decide)).2 LEAD_TO_DEAL_ENUM_ORIGEM (by decide)).1 "2136" (by decide)

/-- C1 (amended): the explicit response-body check lives in
`criar_agendamento_belle` (the booking used by `/webhook/agendar`): a
transport-successful booking response carrying an error message and no booking
code is classified as a failure by that check alone. -/
theorem criar_agendamento_belle_classifica_erro_sem_codigo
    (codServico : Option String) (tempo : Int) (resp : BelleAgendaResp)
    (hmsg : pyTruthy resp.msg = true)
    (hcod : pyTruthy resp.codAgendamento = false) :
    (criar_agendamento_belle codServico tempo (.ok resp)).1 =
      .error ("Belle API: " ++ resp.msg.getD "") := by
  unfold criar_agendamento_belle
  simp [hmsg, hcod]

/-- C1 witness: the message-only response is rejected by
`criar_agendamento_belle` although the transport call succeeded. -/
theorem criar_agendamento_belle_classifica_erro_sem_codigo_witness :
    (criar_agendamento_belle (some "4") 30 (.ok respErroSemCodigo)).1 =
      .error ("Belle API: " ++ respErroSemCodigo.msg.getD "") :=
  criar_agendamento_belle_classifica_erro_sem_codigo (some "4") 30
    respErroSemCodigo (by decide) (by decide)

/-- C1 counterexample: the legacy `/agendamentos/add/` endpoint also issues
bookings but performs no response-body check — on the very same message-only
response it reports success with placeholder booking code `"CRIADO"`, refuting
the claim that the failure classification applies to every booking endpoint. -/
theorem agendamentos_add_legacy_aceita_erro_sem_codigo :
    pyTruthy respErroSemCodigo.msg = true ∧
    respErroSemCodigo.codAgendamento = none ∧
    legacyOracleErro.agenda_gravar = .ok respErroSemCodigo ∧
    (agendamentos_add_legacy legacyQueryErro legacyOracleErro).1 =
      LegacyResult.ok "CRIADO" (some "321") := by
  refine ⟨by decide, rfl, rfl, ?_⟩
  decide

/-- Helper: `ldigits` of zero is all zeros. -/
theorem ldigits_zero (k : Nat) : ldigits k 0 = List.replicate k 0 := by
  induction k with
  | zero => rfl
  | succ k ih => simp [ldigits, ih, List.replicate_succ]

/-- Helper: taking `k ≤ j` entries of the zero-padded little-endian digit list
yields exactly the first `k` digits. -/
theorem take_digits_replicate (k : Nat) :
    ∀ (j n : Nat), k ≤ j →
      (Nat.digits 10 n ++ List.replicate j 0).take k = ldigits k n := by
  induction k with
  | zero => intro j n _; rfl
  | succ k ih =>
    intro j n hkj
    rcases Nat.eq_zero_or_pos n with hn | hn
    · subst hn
      simp only [Nat.digits_zero, List.nil_append, List.take_replicate]
      rw [Nat.min_eq_left hkj]
      rw [ldigits_zero]
    · rw [Nat.digits_def' (by norm_num : (1:Nat) < 10) hn]
      rw [List.cons_append, List.take_succ_cons, ldigits]
      rw [ih j (n / 10) (Nat.le_of_succ_le hkj)]

/-- Helper: the first `k` little-endian digits of `n` depend only on
`n % 10 ^ k`. -/
theorem ldigits_mod_pow (k : Nat) : ∀ n : Nat, ldigits k (n % 10 ^ k) = ldigits k n := by
  induction k with
  | zero => intro n; rfl
  | succ k ih =>
    intro n
    rw [ldigits, ldigits]
    have h1 : n % 10 ^ (k + 1) % 10 = n % 10 :=
      Nat.mod_mod_of_dvd n (dvd_pow_self 10 (Nat.succ_ne_zero k))
    have h2 : n % 10 ^ (k + 1) / 10 = n / 10 % 10 ^ k := by
      rw [pow_succ']
      exact Nat.mod_mul_right_div_self n 10 (10 ^ k)
    rw [h1, h2, ih (n / 10)]

/-- Helper: the nine-character base of the synthesized CPF is the reversed,
zero-padded list of the first nine little-endian digits of the seed. -/
theorem zfill9_pyStrNat_eq (n : Nat) :
    zfill9_last9 (pyStrNat n) = ((ldigits 9 n).map Nat.digitChar).reverse := by
  rcases Nat.eq_zero_or_pos n with hn | hn
  · subst hn
    rw [ldigits_zero]
    decide
  · have h10 : (1:Nat) < 10 := by norm_num
    unfold pyStrNat
    rw [if_neg (Nat.pos_iff_ne_zero.mp hn)]
    unfold zfill9_last9
    dsimp only
    set li : List Char := (Nat.digits 10 n).map Nat.digitChar with hli
    have hlen : li.length = (Nat.digits 10 n).length := by simp [hli]
    -- the padded string is the reverse of the digit list extended with zeros
    have hrev : List.replicate (9 - li.reverse.length) '0' ++ li.reverse =
        (li ++ List.replicate (9 - li.length) '0').reverse := by
      rw [List.reverse_append, List.reverse_replicate, List.length_reverse]
    rw [hrev]
    have hlen2 : (li ++ List.replicate (9 - li.length) '0').length =
        li.length + (9 - li.length) := by simp
    have hge : 9 ≤ (li ++ List.replicate (9 - li.length) '0').length := by
      rw [hlen2]; omega
    rw [List.length_reverse, List.drop_reverse, hlen2]
    have hnine : li.length + (9 - li.length) - (li.length + (9 - li.length) - 9) = 9 := by
      omega
    rw [hnine]
    -- both paddings agree on the first nine characters
    have hboth : (li ++ List.replicate (9 - li.length) '0').take 9 =
        (li ++ List.replicate 9 '0').take 9 := by
      rw [List.take_append_eq_append_take, List.take_append_eq_append_take]
      rw [List.take_replicate, List.take_replicate]
      have : min (9 - li.length) (9 - li.length) = min (9 - li.length) 9 := by
        omega
      rw [this]
    rw [hboth]
    have hmap : (li ++ List.replicate 9 '0') =
        ((Nat.digits 10 n ++ List.replicate 9 0).map Nat.digitChar) := by
      rw [List.map_append, hli]
      congr 1
    rw [hmap, ← List.map_take, take_digits_replicate 9 9 n (le_refl 9)]

/-- C10: the synthesized identity document depends only on the last nine
decimal digits of the seed: seeds congruent modulo `10 ^ 9` produce the same
CPF (determinism for a fixed seed is the reflexive instance). -/
theorem gerar_cpf_valido_mod_eq (s t : Nat) (h : s % 10 ^ 9 = t % 10 ^ 9) :
    gerar_cpf_valido s = gerar_cpf_valido t := by
  have hb : zfill9_last9 (pyStrNat s) = zfill9_last9 (pyStrNat t) := by
    rw [zfill9_pyStrNat_eq, zfill9_pyStrNat_eq,
      ← ldigits_mod_pow 9 s, ← ldigits_mod_pow 9 t, h]
  unfold gerar_cpf_valido
  rw [hb]

/-- C10 witness: the seeds 1000000007 and 7 share their last nine digits and
receive the same synthesized document. -/
theorem gerar_cpf_valido_mod_eq_witness :
    gerar_cpf_valido 1000000007 = gerar_cpf_valido 7 :=
  gerar_cpf_valido_mod_eq 1000000007 7 (by norm_num)

/-- C3: when any required field is empty the pipeline returns a structured
failure before any gateway call — the only external call is the audit comment —
and the failure message names exactly the missing fields (each label appears in
the list iff its field is empty). -/
theorem processar_get_validacao_curto_circuito (q : GetQuery) (o : GetOracle)
    (h : q.dataagendamento = "" ∨ q.horario = "" ∨ q.profissional = "" ∨
      q.estabelecimento = "" ∨ q.procedimento = "") :
    processar_agendamento_get q o =
      (GetResult.fail ("Campos obrigatórios não preenchidos: " ++
          String.intercalate ", " (camposFaltando q.dataagendamento q.horario
            q.profissional q.estabelecimento q.procedimento)) q.lead_id,
        [ExtCall.bitrix "crm.timeline.comment.add"]) ∧
    (∀ d hr p e pr,
      ("Data do Agendamento (dataagendamento)" ∈ camposFaltando d hr p e pr ↔
        d = "") ∧
      ("Horário (horario)" ∈ camposFaltando d hr p e pr ↔ hr = "") ∧
      ("Profissional (profissional)" ∈ camposFaltando d hr p e pr ↔ p = "") ∧
      ("Estabelecimento (estabelecimento)" ∈ camposFaltando d hr p e pr ↔
        e = "") ∧
      ("Procedimento/Serviço (procedimento) - OBRIGATÓRIO para API Belle" ∈
          camposFaltando d hr p e pr ↔ pr = "")) := by
  have hne : (camposFaltando q.dataagendamento q.horario q.profissional
      q.estabelecimento q.procedimento).isEmpty = false := by
    rcases h with h | h | h | h | h <;> simp [camposFaltando, h]
  constructor
  · unfold processar_agendamento_get
    dsimp only
    rw [hne]
    simp [adicionar_comentario_lead]
  · intro d hr p e pr
    refine ⟨?_, ?_, ?_, ?_, ?_⟩ <;>
      · by_cases h1 : d = "" <;> by_cases h2 : hr = "" <;> by_cases h3 : p = "" <;>
          by_cases h4 : e = "" <;> by_cases h5 : pr = "" <;>
          simp [camposFaltando, h1, h2, h3, h4, h5]

/-- C3 witness: with an empty date the endpoint fails naming the date field and
issues only the audit comment. -/
theorem processar_get_validacao_curto_circuito_witness :
    processar_agendamento_get getQuerySemData getOracleInerte =
      (GetResult.fail
          "Campos obrigatórios não preenchidos: Data do Agendamento (dataagendamento)"
          9,
        [ExtCall.bitrix "crm.timeline.comment.add"]) :=
  (processar_get_validacao_curto_circuito getQuerySemData getOracleInerte
    (Or.inl rfl)).1

/-- C2: whenever the booking stage returns a booking code, `/webhook/agendar`
returns success with that code populated, for every behaviour of the
post-booking world (lead update, audit comment, lead→deal promotion and line
item may all fail): the oracle fields governing the post-booking stages are
universally quantified and unconstrained. -/
theorem processar_get_sucesso_apesar_de_falhas_pos_booking
    (q : GetQuery) (o : GetOracle)
    (hd : q.dataagendamento ≠ "") (hh : q.horario ≠ "") (hp : q.profissional ≠ "")
    (he : q.estabelecimento ≠ "") (hpr : q.procedimento ≠ "")
    (eb : Int) (heb : pyInt? q.estabelecimento = some eb)
    (hvp : (validar_profissional_no_estabelecimento q.profissional
      (converter_estabelecimento_para_belle o.estab_api eb).1 o.usuario_buscar).1.1 = true)
    (c : String) (hc : q.codigo_cliente_belle = some c) (hc' : c ≠ "")
    (k : Int) (hk : pyInt? c = some k)
    (resp : BelleAgendaResp) (hresp : o.agenda_gravar = .ok resp)
    (ca : String) (hca : resp.codAgendamento = some ca) (hca' : ca ≠ "") :
    (processar_agendamento_get q o).1 =
      GetResult.ok ca (some c) q.lead_id
        (validar_estabelecimento
          (converter_estabelecimento_para_belle o.estab_api eb).1 none) := by
  have hne : (camposFaltando q.dataagendamento q.horario q.profissional
      q.estabelecimento q.procedimento).isEmpty = true := by
    simp [camposFaltando, hd, hh, hp, he, hpr]
  have hctru : pyTruthy (some c) = true := by simp [pyTruthy, hc']
  have hcoda : pyTruthy resp.codAgendamento = true := by
    rw [hca]; simp [pyTruthy, hca']
  have hfirst : pyFirstD [resp.codAgendamento, resp.codigo_agendamento,
      resp.codigo, resp.id] "CRIADO" = ca := by
    rw [hca]; simp [pyFirstD, pyFirstOpt, hca']
  unfold processar_agendamento_get
  dsimp only
  rw [hne]
  simp only [Bool.not_true, Bool.false_eq_true, if_false, if_neg he, heb, hvp,
    hc, hctru, hresp, hk, if_true, criar_agendamento_belle, hcoda,
    Bool.and_false, Option.getD_some]
  rw [hfirst]

/-- C2 witness: a complete request whose booking succeeds with code `"AG1"`
while the lead fetch is empty and the deal creation raises: the endpoint still
returns success with the booking code. -/
theorem processar_get_sucesso_apesar_de_falhas_pos_booking_witness :
    (processar_agendamento_get getQuerySucesso getOracleSucesso).1 =
      GetResult.ok "AG1" (some "77") 5 none :=
  processar_get_sucesso_apesar_de_falhas_pos_booking getQuerySucesso
    getOracleSucesso (by decide) (by decide) (by decide) (by decide) (by decide)
    240 (by decide) (by decide) "77" rfl (by decide) 77 (by decide)
    { codAgendamento := some "AG1" } rfl "AG1" rfl (by decide)

/-- Helper: the service codes sent in the legacy `serv` array are exactly the
supplied tokens that are nonempty and at most six characters long. -/
theorem montar_serv_array_codes (sdict : List ServParam) (t : String) :
    ∀ servicos : List String,
      (montar_serv_array servicos sdict t).map ServEntry.codServico =
        servicos.filter (fun s => s != "" && decide (s.length ≤ 6)) := by
  intro servicos
  induction servicos with
  | nil => rfl
  | cons s rest ih =>
    by_cases hc : (s != "" && decide (s.length ≤ 6)) = true
    · simp [montar_serv_array, hc, ih]
    · simp [montar_serv_array, hc, ih]

/-- C9: in the legacy add operation every service token longer than six
characters is silently excluded from the `serv` array; when every supplied
token is longer than six characters the booking is still issued with an empty
service list, only the `servicos_ignorados` warning being emitted, and the
request reports success. -/
theorem legacy_servicos_longos_excluidos (q : LegacyQuery) (o : LegacyOracle)
    (hd : q.dtAgd ≠ "") (hh : q.hri ≠ "")
    (e : Int) (hce : q.codEstab ≠ "") (he : pyInt? q.codEstab = some e) (he0 : e ≠ 0)
    (hcli : q.codCli = "") (hcpf : q.contatoCPF = "")
    (resp : BelleAgendaResp) (hresp : o.agenda_gravar = .ok resp)
    (hlong : ∀ s ∈ (extract_servicos q.query_params).1, 6 < s.length)
    (hne : (extract_servicos q.query_params).1 ≠ []) :
    (∀ (servicos : List String) (sdict : List ServParam) (t : String) (s : String),
      s ∈ servicos → 6 < s.length →
      s ∉ (montar_serv_array servicos sdict t).map ServEntry.codServico) ∧
    montar_serv_array (extract_servicos q.query_params).1
      (extract_servicos q.query_params).2 q.tempo = [] ∧
    servicos_ignorados_warning (extract_servicos q.query_params).1
      (montar_serv_array (extract_servicos q.query_params).1
        (extract_servicos q.query_params).2 q.tempo) = true ∧
    ExtCall.belleAgenda [] ∈ (agendamentos_add_legacy q o).2 ∧
    (agendamentos_add_legacy q o).1 =
      LegacyResult.ok (pyFirstD [resp.codAgendamento, resp.codigo_agendamento,
        resp.codigo, resp.id] "CRIADO") none := by
  have hmont : montar_serv_array (extract_servicos q.query_params).1
      (extract_servicos q.query_params).2 q.tempo = [] := by
    have hcodes := montar_serv_array_codes (extract_servicos q.query_params).2
      q.tempo (extract_servicos q.query_params).1
    have hfilter : (extract_servicos q.query_params).1.filter
        (fun s => s != "" && decide (s.length ≤ 6)) = [] := by
      rw [List.filter_eq_nil_iff]
      intro a ha
      have := hlong a ha
      simp
      intro _
      omega
    rw [hfilter] at hcodes
    exact List.map_eq_nil_iff.mp hcodes
  refine ⟨?_, hmont, ?_, ?_, ?_⟩
  · intro servicos sdict t s hs hlen hmem
    rw [montar_serv_array_codes] at hmem
    have hpred := (List.mem_filter.mp hmem).2
    simp at hpred
    omega
  · simp [servicos_ignorados_warning, hmont, hne]
  · unfold agendamentos_add_legacy
    dsimp only
    simp [hd, hh, hce, he, he0, hcli, hcpf, hresp, hmont]
  · unfold agendamentos_add_legacy
    dsimp only
    simp [hd, hh, hce, he, he0, hcli, hcpf, hresp, hmont]

/-- C9 witness: with the long tokens `"1234567"` and `"7654321"` the legacy
endpoint issues the booking with an empty service array and reports success
with the returned code. -/
theorem legacy_servicos_longos_excluidos_witness :
    ExtCall.belleAgenda [] ∈
      (agendamentos_add_legacy legacyQueryServicosLongos
        legacyOracleServicosLongos).2 ∧
    (agendamentos_add_legacy legacyQueryServicosLongos
        legacyOracleServicosLongos).1 = LegacyResult.ok "AG9" none :=
  ⟨(legacy_servicos_longos_excluidos legacyQueryServicosLongos
      legacyOracleServicosLongos (by decide) (by decide) 1 (by decide) (by decide)
      (by decide) (by decide) (by decide) { codAgendamento := some "AG9" } rfl
      (by decide) (by decide)).2.2.2.1,
   (legacy_servicos_longos_excluidos legacyQueryServicosLongos
      legacyOracleServicosLongos (by decide) (by decide) 1 (by decide) (by decide)
      (by decide) (by decide) (by decide) { codAgendamento := some "AG9" } rfl
      (by decide) (by decide)).2.2.2.2⟩
